import Mathlib

/-!
Verification of the log-ingestion service (`src/logging/src/lib.rs`): a shallow
embedding of its state, access filter, control handler, log router and message
dispatch loop, together with theorems about the frozen behavioural claims.

External collaborators (the `kinode_process_lib` transport/VFS and `serde_json`)
are modelled at their interface boundary: byte payloads by their parse result,
file handles by the path they were opened on, and the storage substrate by an
explicit map from path to appended records plus the sets of paths on which each
primitive fails.
-/

namespace Logging

/-- Model of `kinode_process_lib`'s `PackageId`: package name plus publisher
node, rendered as `package_name:publisher_node`. -/
structure PackageId where
  package_name : String
  publisher_node : String
deriving DecidableEq

/-- Model of `kinode_process_lib`'s `Address`, the SenderIdentity: origin node,
process identifier, and the package (name and publisher) it belongs to. -/
structure Address where
  node : String
  process : String
  package_name : String
  publisher_node : String
deriving DecidableEq

/-- The `source.package_id()` accessor. -/
def Address.package_id (a : Address) : PackageId :=
  { package_name := a.package_name, publisher_node := a.publisher_node }

/-- Display form of a `PackageId`, as interpolated into the log-dir path. -/
def PackageId.display (p : PackageId) : String :=
  p.package_name ++ ":" ++ p.publisher_node

/-- Display form of an `Address`, as interpolated into error messages. -/
def Address.display (a : Address) : String :=
  a.node ++ "@" ++ a.process ++ ":" ++ a.package_name ++ ":" ++ a.publisher_node

/-- Model of `serde_json::Value`: a loosely structured record. -/
inductive Json where
  | null : Json
  | bool (b : Bool) : Json
  | num (n : Int) : Json
  | str (s : String) : Json
  | arr (elems : List Json) : Json
  | obj (fields : List (String × Json)) : Json

/-- Map insertion as in `serde_json`: replace the value at an existing key,
otherwise add the key at the end. -/
def setField : List (String × Json) → String → Json → List (String × Json)
  | [], key, v => [(key, v)]
  | (k, w) :: rest, key, v =>
    if k = key then (k, v) :: rest else (k, w) :: setField rest key v

/-- Key lookup in a record's field list. -/
def getField : List (String × Json) → String → Option Json
  | [], _ => none
  | (k, w) :: rest, key => if k = key then some w else getField rest key

/-- Field access on a record value. -/
def Json.get? (j : Json) (key : String) : Option Json :=
  match j with
  | .obj fields => getField fields key
  | _ => none

/-- The assignment `log[key] = value` via `serde_json`'s `IndexMut` on `Value`:
it inserts into an object, turns `null` into a one-field object, and panics
(`none` here) on every other variant. -/
def Json.indexSet (j : Json) (key : String) (v : Json) : Option Json :=
  match j with
  | .obj fields => some (.obj (setField fields key v))
  | .null => some (.obj [(key, v)])
  | _ => none

/-- The serialized sender identity `serde_json::json!(source)` stamped into the
`source` field of every persisted record. -/
def addressJson (a : Address) : Json :=
  .str a.display

/-- The `State` struct of the service (`log_files` maps each sender `Address`
to the path its cached `File` handle was opened on). -/
structure State where
  drive_path : String
  log_files : List (Address × String)
  allowed_packages : Finset PackageId
  whitelist : Finset String
  blacklist : Finset String
deriving DecidableEq

/-- Lookup in the `log_files` map. -/
def findFile : List (Address × String) → Address → Option String
  | [], _ => none
  | (a, f) :: rest, key => if a = key then some f else findFile rest key

/-- A denial produced by the access filter, carrying the data interpolated into
the `Some(explanatory message)` strings of the source. -/
inductive DenyReason where
  | unWhitelistedNode (node : String)
  | blacklistedNode (node : String)
  | packageNotAllowed (package : PackageId) (allowed : Finset PackageId)
deriving DecidableEq

/-- The `is_node_allowed` check: `none` means the node is allowed, `some r`
means it is dropped with reason `r`. -/
def is_node_allowed (source : Address) (state : State) : Option DenyReason :=
  if state.whitelist ≠ ∅ ∧ source.node ∉ state.whitelist then
    some (.unWhitelistedNode source.node)
  else if state.blacklist ≠ ∅ ∧ source.node ∈ state.blacklist then
    some (.blacklistedNode source.node)
  else
    none

/-- The `is_package_allowed` check: `none` means the package is allowed. -/
def is_package_allowed (source : Address) (state : State) : Option DenyReason :=
  if state.allowed_packages ≠ ∅ ∧ source.package_id ∉ state.allowed_packages then
    some (.packageNotAllowed source.package_id state.allowed_packages)
  else
    none

/-- The access-filter prefix of `handle_message`: `is_node_allowed` first, and
only when it returns `None` is `is_package_allowed` consulted. -/
def filter_check (source : Address) (state : State) : Option DenyReason :=
  match is_node_allowed source state with
  | some reason => some reason
  | none => is_package_allowed source state

/-- The one-variant `LoggingRequest` of the wit interface; its byte payload is
modelled by its `serde_json::from_slice` parse result, `none` standing for
bytes that fail to parse as a structured record. -/
inductive LoggingRequest where
  | log (payload : Option Json)

/-- The six control commands of `InternalRequest`. -/
inductive InternalRequest where
  | addAllowedPackage (p : PackageId)
  | removeAllowedPackage (p : PackageId)
  | whitelistNode (node : String)
  | unwhitelistNode (node : String)
  | blacklistNode (node : String)
  | unblacklistNode (node : String)

/-- The untagged meta-type `Req` over the two inbound request shapes. -/
inductive Req where
  | loggingRequest (request : LoggingRequest)
  | internalRequest (request : InternalRequest)

/-- An inbound message: the request flag, the sender, and the body as already
discriminated by the untagged deserialization (`none` = matches neither
shape, i.e. `try_into` fails). -/
structure Message where
  is_request : Bool
  source : Address
  body : Option Req

/-- The storage substrate (VFS collaborator): the records appended to each
file path, plus the paths on which `open_dir`, `open_file` or `append` fail. -/
structure Vfs where
  files : List (String × List Json)
  dir_fail : List String
  file_fail : List String
  append_fail : List String

/-- Lookup of a file's recorded contents. -/
def findContents : List (String × List Json) → String → Option (List Json)
  | [], _ => none
  | (p, c) :: rest, key => if p = key then some c else findContents rest key

/-- Contents of a file path (empty when the file does not exist). -/
def Vfs.contents (vfs : Vfs) (path : String) : List Json :=
  (findContents vfs.files path).getD []

/-- Replace the contents stored under a path, adding the path if absent. -/
def setContents : List (String × List Json) → String → List Json → List (String × List Json)
  | [], key, c => [(key, c)]
  | (p, d) :: rest, key, c =>
    if p = key then (p, c) :: rest else (p, d) :: setContents rest key c

/-- Opening a file with `create = true`: the file comes into existence empty
if it was not there. -/
def Vfs.touch (vfs : Vfs) (path : String) : Vfs :=
  match findContents vfs.files path with
  | some _ => vfs
  | none => { vfs with files := setContents vfs.files path [] }

/-- A successful `File::append` of one serialized record. -/
def Vfs.append_record (vfs : Vfs) (path : String) (r : Json) : Vfs :=
  { vfs with files := setContents vfs.files path (vfs.contents path ++ [r]) }

/-- Outcome of handling one message against the mutable state: `ok` and `err`
return control to the dispatch loop carrying the mutations made so far
(matching the Rust `&mut` semantics of `?`-propagated errors), while `panic`
aborts the process (a Rust `panic!` via `expect` or `IndexMut`). -/
inductive HandleResult (σ : Type) where
  | ok (s : σ)
  | err (msg : String) (s : σ)
  | panic (msg : String)

/-- The log-dir path `format!("{}/{}", state.drive_path, source.package_id())`. -/
def log_dir_path (state : State) (source : Address) : String :=
  state.drive_path ++ "/" ++ source.package_id.display

/-- The log-file path `format!("{log_dir_path}/{}.log", source.process())`. -/
def log_file_path (state : State) (source : Address) : String :=
  log_dir_path state source ++ "/" ++ source.process ++ ".log"

/-- The `handle_logging_request` router: parse the payload, stamp the `source`
field, resolve (creating and caching on a miss) the append target for the
sender, and append the record.  `open_dir`/`open_file` failures panic through
the two `expect` calls inside `or_insert_with`; parse and append failures are
`?`-propagated errors. -/
def handle_logging_request (source : Address) (request : LoggingRequest)
    (state : State) (vfs : Vfs) : HandleResult (State × Vfs) :=
  match request with
  | .log payload =>
    match payload with
    | none => .err ("failed to parse log payload") (state, vfs)
    | some parsed =>
      match parsed.indexSet ("source") (addressJson source) with
      | none => .panic ("cannot index into non-object JSON value")
      | some record =>
        match findFile state.log_files source with
        | some path =>
          if path ∈ vfs.append_fail then .err ("append failed") (state, vfs)
          else .ok (state, vfs.append_record path record)
        | none =>
          if log_dir_path state source ∈ vfs.dir_fail then
            .panic ("failed to open log dir")
          else
            let path := log_file_path state source
            if path ∈ vfs.file_fail then .panic ("failed to open log file")
            else
              let state1 :=
                { state with log_files := (source, path) :: state.log_files }
              let vfs1 := vfs.touch path
              if path ∈ vfs.append_fail then .err ("append failed") (state1, vfs1)
              else .ok (state1, vfs1.append_record path record)

/-- The `handle_internal_request` control handler: reject any sender other
than the service itself, otherwise apply the one mutation to its set. -/
def handle_internal_request (our source : Address) (request : InternalRequest)
    (state : State) : HandleResult State :=
  if our ≠ source then
    .err ("rejecting InternalRequest from remote node " ++ source.display) state
  else
    .ok (match request with
      | .addAllowedPackage p =>
        { state with allowed_packages := insert p state.allowed_packages }
      | .removeAllowedPackage p =>
        { state with allowed_packages := state.allowed_packages.erase p }
      | .whitelistNode node =>
        { state with whitelist := insert node state.whitelist }
      | .unwhitelistNode node =>
        { state with whitelist := state.whitelist.erase node }
      | .blacklistNode node =>
        { state with blacklist := insert node state.blacklist }
      | .unblacklistNode node =>
        { state with blacklist := state.blacklist.erase node })

/-- The `handle_message` dispatcher: reject responses, run the access filter
(a denial is an informational no-op, `Ok`), then dispatch the body to the log
router or the control handler. -/
def handle_message (our : Address) (message : Message) (state : State)
    (vfs : Vfs) : HandleResult (State × Vfs) :=
  if ¬message.is_request then
    .err ("unexpected Response") (state, vfs)
  else
    match filter_check message.source state with
    | some _ => .ok (state, vfs)
    | none =>
      match message.body with
      | none => .err ("could not deserialize Request body") (state, vfs)
      | some (.loggingRequest request) =>
        handle_logging_request message.source request state vfs
      | some (.internalRequest request) =>
        match handle_internal_request our message.source request state with
        | .ok s => .ok (s, vfs)
        | .err m s => .err m (s, vfs)
        | .panic m => .panic m

/-- The dispatch loop of `init`: handle messages in order, `Ok` and `Err`
outcomes continue with the (possibly mutated) state, a panic kills the
process (`none`). -/
def run (our : Address) (msgs : List Message) (sv : State × Vfs) :
    Option (State × Vfs) :=
  match msgs with
  | [] => some sv
  | m :: rest =>
    match handle_message our m sv.1 sv.2 with
    | .ok s => run our rest s
    | .err _ s => run our rest s
    | .panic _ => none

/-- Modelled from the spec (§4.1): the single four-branch short-circuit
decision the specification describes — whitelist, then blacklist, then
allowed-packages, else allowed.  Stated separately from the source-derived
`filter_check` so the two can be compared. -/
def specFilterDecision (source : Address) (state : State) : Option DenyReason :=
  if state.whitelist ≠ ∅ ∧ source.node ∉ state.whitelist then
    some (.unWhitelistedNode source.node)
  else if state.blacklist ≠ ∅ ∧ source.node ∈ state.blacklist then
    some (.blacklistedNode source.node)
  else if state.allowed_packages ≠ ∅ ∧ source.package_id ∉ state.allowed_packages then
    some (.packageNotAllowed source.package_id state.allowed_packages)
  else
    none

/-! ## Helper lemmas -/

/-- Agreement of two states on the three filter sets. -/
def sameSets (s1 s2 : State) : Prop :=
  s1.allowed_packages = s2.allowed_packages ∧
  s1.whitelist = s2.whitelist ∧
  s1.blacklist = s2.blacklist

theorem sameSets_refl (s : State) : sameSets s s :=
  ⟨rfl, rfl, rfl⟩

theorem sameSets_trans {s1 s2 s3 : State} (h1 : sameSets s1 s2)
    (h2 : sameSets s2 s3) : sameSets s1 s3 :=
  ⟨h1.1.trans h2.1, h1.2.1.trans h2.2.1, h1.2.2.trans h2.2.2⟩

/-- The filter decision only reads the three filter sets of the state. -/
theorem filter_check_sets (source : Address) {s1 s2 : State}
    (h : sameSets s1 s2) :
    filter_check source s1 = filter_check source s2 := by
  obtain ⟨ha, hw, hb⟩ := h
  unfold filter_check is_node_allowed is_package_allowed
  rw [ha, hw, hb]

theorem findContents_setContents_self (fs : List (String × List Json))
    (key : String) (c : List Json) :
    findContents (setContents fs key c) key = some c := by
  induction fs with
  | nil => simp [setContents, findContents]
  | cons hd tl ih =>
    obtain ⟨p, d⟩ := hd
    by_cases hp : p = key <;> simp [setContents, findContents, hp, ih]

theorem findContents_setContents_other (fs : List (String × List Json))
    {key key2 : String} (c : List Json) (h : key2 ≠ key) :
    findContents (setContents fs key c) key2 = findContents fs key2 := by
  induction fs with
  | nil => simp [setContents, findContents, Ne.symm h]
  | cons hd tl ih =>
    obtain ⟨p, d⟩ := hd
    by_cases hp : p = key
    · subst hp; simp [setContents, findContents, Ne.symm h]
    · by_cases hp2 : p = key2 <;> simp [setContents, findContents, hp, hp2, ih, h]

theorem Vfs.contents_append_record_self (vfs : Vfs) (path : String) (r : Json) :
    (vfs.append_record path r).contents path = vfs.contents path ++ [r] := by
  simp [Vfs.append_record, Vfs.contents, findContents_setContents_self]

theorem Vfs.contents_append_record_other (vfs : Vfs) {path q : String}
    (r : Json) (h : q ≠ path) :
    (vfs.append_record path r).contents q = vfs.contents q := by
  simp [Vfs.append_record, Vfs.contents, findContents_setContents_other _ _ h]

theorem Vfs.contents_touch_self (vfs : Vfs) (path : String) :
    (vfs.touch path).contents path = vfs.contents path := by
  unfold Vfs.touch
  cases hq : findContents vfs.files path with
  | some c => rfl
  | none => simp [Vfs.contents, hq, findContents_setContents_self]

theorem Vfs.contents_touch_other (vfs : Vfs) {path q : String} (h : q ≠ path) :
    (vfs.touch path).contents q = vfs.contents q := by
  unfold Vfs.touch
  cases hq : findContents vfs.files path with
  | some c => rfl
  | none => simp [Vfs.contents, hq, findContents_setContents_other _ _ h]

theorem Vfs.touch_fail_fields (vfs : Vfs) (path : String) :
    (vfs.touch path).dir_fail = vfs.dir_fail ∧
    (vfs.touch path).file_fail = vfs.file_fail ∧
    (vfs.touch path).append_fail = vfs.append_fail := by
  unfold Vfs.touch
  cases findContents vfs.files path <;> exact ⟨rfl, rfl, rfl⟩

theorem Vfs.append_record_fail_fields (vfs : Vfs) (path : String) (r : Json) :
    (vfs.append_record path r).dir_fail = vfs.dir_fail ∧
    (vfs.append_record path r).file_fail = vfs.file_fail ∧
    (vfs.append_record path r).append_fail = vfs.append_fail :=
  ⟨rfl, rfl, rfl⟩

theorem getField_setField_self (fs : List (String × Json)) (key : String)
    (v : Json) : getField (setField fs key v) key = some v := by
  induction fs with
  | nil => simp [setField, getField]
  | cons hd tl ih =>
    obtain ⟨k, w⟩ := hd
    by_cases hk : k = key <;> simp [setField, getField, hk, ih]

/-- Dispatch reduction: a request passing the filter with a log-write body is
routed to `handle_logging_request`. -/
theorem handle_message_logging (our source : Address) (request : LoggingRequest)
    (state : State) (vfs : Vfs) (hfilter : filter_check source state = none) :
    handle_message our ⟨true, source, some (.loggingRequest request)⟩ state vfs =
      handle_logging_request source request state vfs := by
  simp [handle_message, hfilter]

/-- Dispatch reduction: a request passing the filter with a control body is
routed to `handle_internal_request`. -/
theorem handle_message_internal (our source : Address)
    (request : InternalRequest) (state : State) (vfs : Vfs)
    (hfilter : filter_check source state = none) :
    handle_message our ⟨true, source, some (.internalRequest request)⟩ state vfs =
      match handle_internal_request our source request state with
      | .ok s => .ok (s, vfs)
      | .err m s => .err m (s, vfs)
      | .panic m => .panic m := by
  simp [handle_message, hfilter]

/-- Dispatch reduction: a filter denial is an informational no-op. -/
theorem handle_message_denied (our : Address) (m : Message) (state : State)
    (vfs : Vfs) (r : DenyReason) (hreq : m.is_request = true)
    (hden : filter_check m.source state = some r) :
    handle_message our m state vfs = .ok (state, vfs) := by
  simp [handle_message, hreq, hden]

/-- Successful routing for a sender with no cached target: the target is
created at the derived path and the stamped record appended. -/
theorem handle_logging_request_fresh (source : Address)
    (fields : List (String × Json)) (state : State) (vfs : Vfs)
    (hfresh : findFile state.log_files source = none)
    (hdir : log_dir_path state source ∉ vfs.dir_fail)
    (hfile : log_file_path state source ∉ vfs.file_fail)
    (happ : log_file_path state source ∉ vfs.append_fail) :
    handle_logging_request source (.log (some (.obj fields))) state vfs =
      .ok ({ state with
              log_files := (source, log_file_path state source) :: state.log_files },
           (vfs.touch (log_file_path state source)).append_record
             (log_file_path state source)
             (.obj (setField fields ("source") (addressJson source)))) := by
  unfold handle_logging_request
  simp [Json.indexSet, hfresh, hdir, hfile, happ]

/-- Successful routing for a sender with a cached target: the record is
appended through the cached handle and no target is created. -/
theorem handle_logging_request_cached (source : Address) (path : String)
    (fields : List (String × Json)) (state : State) (vfs : Vfs)
    (hpath : findFile state.log_files source = some path)
    (happ : path ∉ vfs.append_fail) :
    handle_logging_request source (.log (some (.obj fields))) state vfs =
      .ok (state,
           vfs.append_record path
             (.obj (setField fields ("source") (addressJson source)))) := by
  unfold handle_logging_request
  simp [Json.indexSet, hpath, happ]

/-- Exhaustive case analysis of the log router's outcome: it panics, or it
returns (`ok` or `err`) with the state unchanged, or with exactly the new
target for this sender prepended to `log_files`. -/
theorem handle_logging_request_shape (source : Address) (payload : Option Json)
    (state : State) (vfs : Vfs) :
    (∃ m, handle_logging_request source (.log payload) state vfs = .panic m) ∨
    (∃ m v2, handle_logging_request source (.log payload) state vfs
      = .err m (state, v2)) ∨
    (∃ v2, handle_logging_request source (.log payload) state vfs
      = .ok (state, v2)) ∨
    (∃ m v2, handle_logging_request source (.log payload) state vfs =
        .err m ({ state with
          log_files := (source, log_file_path state source) :: state.log_files },
          v2)) ∨
    (∃ v2, handle_logging_request source (.log payload) state vfs =
        .ok ({ state with
          log_files := (source, log_file_path state source) :: state.log_files },
          v2)) := by
  rcases payload with _ | parsed <;> simp only [handle_logging_request]
  · exact Or.inr (Or.inl ⟨_, _, rfl⟩)
  · cases hq : parsed.indexSet ("source") (addressJson source) with
    | none =>
      simp only [hq]
      exact Or.inl ⟨_, rfl⟩
    | some record =>
      simp only [hq]
      cases hf : findFile state.log_files source with
      | some path =>
        simp only [hf]
        by_cases hp : path ∈ vfs.append_fail
        · simp only [if_pos hp]
          exact Or.inr (Or.inl ⟨_, _, rfl⟩)
        · simp only [if_neg hp]
          exact Or.inr (Or.inr (Or.inl ⟨_, rfl⟩))
      | none =>
        simp only [hf]
        by_cases h1 : log_dir_path state source ∈ vfs.dir_fail
        · simp only [if_pos h1]
          exact Or.inl ⟨_, rfl⟩
        · simp only [if_neg h1]
          by_cases h2 : log_file_path state source ∈ vfs.file_fail
          · simp only [if_pos h2]
            exact Or.inl ⟨_, rfl⟩
          · simp only [if_neg h2]
            by_cases h3 : log_file_path state source ∈ vfs.append_fail
            · simp only [if_pos h3]
              exact Or.inr (Or.inr (Or.inr (Or.inl ⟨_, _, rfl⟩)))
            · simp only [if_neg h3]
              exact Or.inr (Or.inr (Or.inr (Or.inr ⟨_, rfl⟩)))

/-- The log router never changes the filter sets or the drive path, over both
`ok` and `err` outcomes. -/
theorem handle_logging_request_sets (source : Address)
    (request : LoggingRequest) (state s : State) (vfs v : Vfs) (msg : String)
    (h : handle_logging_request source request state vfs = .ok (s, v) ∨
         handle_logging_request source request state vfs = .err msg (s, v)) :
    sameSets s state ∧ s.drive_path = state.drive_path := by
  obtain ⟨payload⟩ := request
  rcases handle_logging_request_shape source payload state vfs with
    ⟨m, heq⟩ | ⟨m, v2, heq⟩ | ⟨v2, heq⟩ | ⟨m, v2, heq⟩ | ⟨v2, heq⟩ <;>
    rcases h with h | h <;> rw [heq] at h <;>
    first
    | exact HandleResult.noConfusion h
    | (injection h with hpair
       injection hpair with h1 h2
       subst h1
       exact ⟨sameSets_refl _, rfl⟩)
    | (injection h with hm hpair
       injection hpair with h1 h2
       subst h1
       exact ⟨sameSets_refl _, rfl⟩)

theorem handle_message_sets_locked (our : Address) (m : Message)
    (st0 s : State) (v0 v : Vfs) (msg : String)
    (hdeny : filter_check our st0 ≠ none)
    (h : handle_message our m st0 v0 = .ok (s, v) ∨
         handle_message our m st0 v0 = .err msg (s, v)) :
    sameSets s st0 := by
  by_cases hreq : m.is_request = true
  · rcases hfc : filter_check m.source st0 with _ | r
    · rcases hb : m.body with _ | req
      · have hred : handle_message our m st0 v0
            = .err ("could not deserialize Request body") (st0, v0) := by
          simp [handle_message, hreq, hfc, hb]
        rcases h with h | h <;> rw [hred] at h
        · exact HandleResult.noConfusion h
        · injection h with hm hpair
          injection hpair with h1 h2
          subst h1
          exact sameSets_refl _
      · rcases req with lreq | ireq
        · have hred : handle_message our m st0 v0
              = handle_logging_request m.source lreq st0 v0 := by
            simp [handle_message, hreq, hfc, hb]
          rw [hred] at h
          exact (handle_logging_request_sets _ _ _ _ _ _ msg h).1
        · by_cases hos : our = m.source
          · exact absurd (hos ▸ hfc) hdeny
          · have hred : handle_message our m st0 v0
                = .err ("rejecting InternalRequest from remote node "
                    ++ m.source.display) (st0, v0) := by
              simp [handle_message, hreq, hfc, hb, handle_internal_request, hos]
            rcases h with h | h <;> rw [hred] at h
            · exact HandleResult.noConfusion h
            · injection h with hm hpair
              injection hpair with h1 h2
              subst h1
              exact sameSets_refl _
    · have hred : handle_message our m st0 v0 = .ok (st0, v0) :=
        handle_message_denied our m st0 v0 r hreq hfc
      rcases h with h | h <;> rw [hred] at h
      · injection h with hpair
        injection hpair with h1 h2
        subst h1
        exact sameSets_refl _
      · exact HandleResult.noConfusion h
  · have hred : handle_message our m st0 v0
        = .err ("unexpected Response") (st0, v0) := by
      simp [handle_message, hreq]
    rcases h with h | h <;> rw [hred] at h
    · exact HandleResult.noConfusion h
    · injection h with hm hpair
      injection hpair with h1 h2
      subst h1
      exact sameSets_refl _

theorem run_sets_locked (our : Address) (st : State)
    (hdeny : filter_check our st ≠ none) :
    ∀ (msgs : List Message) (st0 : State) (v0 : Vfs) (st1 : State) (v1 : Vfs),
      sameSets st0 st → run our msgs (st0, v0) = some (st1, v1) →
      sameSets st1 st := by
  intro msgs
  induction msgs with
  | nil =>
    intro st0 v0 st1 v1 hs h
    simp [run] at h
    obtain ⟨h1, h2⟩ := h
    subst h1
    exact hs
  | cons m rest ih =>
    intro st0 v0 st1 v1 hs h
    have hdeny0 : filter_check our st0 ≠ none := by
      rw [filter_check_sets our hs]
      exact hdeny
    rw [run] at h
    cases hm : handle_message our m st0 v0 with
    | ok sv =>
      rw [hm] at h
      obtain ⟨s2, v2⟩ := sv
      have hss := handle_message_sets_locked our m st0 s2 v0 v2 ("")
        hdeny0 (Or.inl hm)
      exact ih s2 v2 st1 v1 (sameSets_trans hss hs) h
    | err msg2 sv =>
      rw [hm] at h
      obtain ⟨s2, v2⟩ := sv
      have hss := handle_message_sets_locked our m st0 s2 v0 v2 msg2
        hdeny0 (Or.inr hm)
      exact ih s2 v2 st1 v1 (sameSets_trans hss hs) h
    | panic msg2 =>
      rw [hm] at h
      exact absurd h (by simp)

theorem string_data_append (s t : String) : (s ++ t).data = s.data ++ t.data := by
  rcases s with ⟨a⟩
  rcases t with ⟨b⟩
  rfl

theorem string_append_ne_of_mid_ne {d p1 p2 t : String}
    (h : p1 ≠ p2) : d ++ p1 ++ t ≠ d ++ p2 ++ t := by
  intro he
  apply h
  have hd := congrArg String.data he
  simp only [string_data_append] at hd
  have h1 := List.append_cancel_right hd
  have h2 := List.append_cancel_left h1
  rcases p1 with ⟨l1⟩
  rcases p2 with ⟨l2⟩
  exact congrArg String.mk h2

/-! ## Concrete fixtures used by witnesses and counterexamples -/

/-- The service's own identity. -/
def ourA : Address := ⟨"alice.os", "logging", "logging", "sys"⟩

/-- A remote log sender. -/
def senderB : Address := ⟨"bob.os", "proc", "pkg", "pub"⟩

/-- A second remote sender in the same package with a different process. -/
def senderB2 : Address := ⟨"bob.os", "proc2", "pkg", "pub"⟩

/-- Fresh service state with empty filter sets. -/
def st0 : State := ⟨"log-drive", [], ∅, ∅, ∅⟩

/-- Empty, failure-free storage. -/
def vfs0 : Vfs := ⟨[], [], [], []⟩

/-! ## Claim theorems -/

/-- C1: for every SenderIdentity and every filter-set configuration the access
filter evaluates in the fixed short-circuit order: a non-empty whitelist not
containing the sender's origin node denies as un-whitelisted; else a non-empty
blacklist containing it denies as blacklisted; else a non-empty allowed-package
set not containing the sender's package denies as not amongst allowed
packages; otherwise the sender is allowed. -/
theorem c1_filter_short_circuit_order (source : Address) (state : State) :
    filter_check source state = specFilterDecision source state := by
  unfold filter_check is_node_allowed is_package_allowed specFilterDecision
  split_ifs <;> rfl

/-- C2: a control command whose sender differs from the service's own identity
is rejected as an error (not a silent denial) and the whole state is returned
unchanged. -/
theorem c2_foreign_control_rejected (our source : Address)
    (request : InternalRequest) (state : State) (h : source ≠ our) :
    handle_internal_request our source request state =
      .err ("rejecting InternalRequest from remote node " ++ source.display)
        state := by
  unfold handle_internal_request
  rw [if_pos (Ne.symm h)]

theorem c2_foreign_control_rejected_witness :
    senderB ≠ ourA ∧
    handle_internal_request ourA senderB (.whitelistNode ("bob.os")) st0 =
      .err ("rejecting InternalRequest from remote node " ++ senderB.display)
        st0 :=
  ⟨by decide,
   c2_foreign_control_rejected ourA senderB (.whitelistNode ("bob.os")) st0
     (by decide)⟩

/-- C6: an accepted log-write whose payload fails to parse is answered with a
propagated error and the state and storage are returned exactly unchanged: no
target is created, no file opened, nothing appended. -/
theorem c6_malformed_payload_error (our source : Address) (state : State)
    (vfs : Vfs) (hfilter : filter_check source state = none) :
    handle_message our ⟨true, source, some (.loggingRequest (.log none))⟩
        state vfs
      = .err ("failed to parse log payload") (state, vfs) := by
  rw [handle_message_logging our source (.log none) state vfs hfilter]
  rfl

theorem c6_malformed_payload_error_witness :
    filter_check senderB st0 = none ∧
    handle_message ourA ⟨true, senderB, some (.loggingRequest (.log none))⟩
        st0 vfs0
      = .err ("failed to parse log payload") (st0, vfs0) :=
  ⟨by decide, c6_malformed_payload_error ourA senderB st0 vfs0 (by decide)⟩

/-- C7: control mutations are idempotent and error-free — each add applied
twice gives the same state as applied once, and each remove of an absent
member returns the state unchanged with no error. -/
theorem c7_control_idempotent (our : Address) (st : State) (p : PackageId)
    (n : String) (hp : p ∉ st.allowed_packages) (hw : n ∉ st.whitelist)
    (hb : n ∉ st.blacklist) :
    (∃ st1, handle_internal_request our our (.addAllowedPackage p) st = .ok st1 ∧
      handle_internal_request our our (.addAllowedPackage p) st1 = .ok st1) ∧
    handle_internal_request our our (.removeAllowedPackage p) st = .ok st ∧
    (∃ st1, handle_internal_request our our (.whitelistNode n) st = .ok st1 ∧
      handle_internal_request our our (.whitelistNode n) st1 = .ok st1) ∧
    handle_internal_request our our (.unwhitelistNode n) st = .ok st ∧
    (∃ st1, handle_internal_request our our (.blacklistNode n) st = .ok st1 ∧
      handle_internal_request our our (.blacklistNode n) st1 = .ok st1) ∧
    handle_internal_request our our (.unblacklistNode n) st = .ok st := by
  have hne : ¬(our ≠ our) := fun hc => hc rfl
  unfold handle_internal_request
  simp only [if_neg hne]
  refine ⟨⟨_, rfl, ?_⟩, ?_, ⟨_, rfl, ?_⟩, ?_, ⟨_, rfl, ?_⟩, ?_⟩
  · simp [Finset.insert_idem]
  · simp [Finset.erase_eq_of_not_mem hp]
  · simp [Finset.insert_idem]
  · simp [Finset.erase_eq_of_not_mem hw]
  · simp [Finset.insert_idem]
  · simp [Finset.erase_eq_of_not_mem hb]

theorem c7_control_idempotent_witness :
    (⟨"pkg", "pub"⟩ : PackageId) ∉ st0.allowed_packages ∧
    ("carol.os") ∉ st0.whitelist ∧ ("carol.os") ∉ st0.blacklist ∧
    handle_internal_request ourA ourA
      (.removeAllowedPackage ⟨"pkg", "pub"⟩) st0 = .ok st0 :=
  ⟨by decide, by decide, by decide,
   (c7_control_idempotent ourA st0 ⟨"pkg", "pub"⟩ ("carol.os")
     (by decide) (by decide) (by decide)).2.1⟩

/-- C8: the filter decision is deterministic and noninterfering — it depends
only on the three filter sets together with the sender's origin node and
package, not on `log_files`, `drive_path`, the rest of the sender identity, or
any other state. -/
theorem c8_filter_noninterfering (s1 s2 : Address) (st1 st2 : State)
    (ha : st1.allowed_packages = st2.allowed_packages)
    (hw : st1.whitelist = st2.whitelist) (hb : st1.blacklist = st2.blacklist)
    (hn : s1.node = s2.node) (hp : s1.package_id = s2.package_id) :
    filter_check s1 st1 = filter_check s2 st2 := by
  rw [filter_check_sets s1 ⟨ha, hw, hb⟩]
  unfold filter_check is_node_allowed is_package_allowed
  rw [hn, hp]

theorem c8_filter_noninterfering_witness :
    (⟨"other-drive", [(ourA, "p")], ∅, ∅, ∅⟩ : State).allowed_packages
        = st0.allowed_packages ∧
    (⟨"other-drive", [(ourA, "p")], ∅, ∅, ∅⟩ : State).whitelist
        = st0.whitelist ∧
    (⟨"other-drive", [(ourA, "p")], ∅, ∅, ∅⟩ : State).blacklist
        = st0.blacklist ∧
    senderB.node = senderB2.node ∧ senderB.package_id = senderB2.package_id ∧
    filter_check senderB ⟨"other-drive", [(ourA, "p")], ∅, ∅, ∅⟩
      = filter_check senderB2 st0 :=
  ⟨by decide, by decide, by decide, by decide, by decide,
   c8_filter_noninterfering senderB senderB2
     ⟨"other-drive", [(ourA, "p")], ∅, ∅, ∅⟩ st0
     (by decide) (by decide) (by decide) (by decide) (by decide)⟩

/-- C10: frame condition — a successfully handled control command mutates only
its one targeted set, leaving the other two sets, `log_files` and
`drive_path` unchanged; and a handled log-write (`ok` or `err`) leaves the
three filter sets and `drive_path` unchanged, modifying at most `log_files`
and the storage. -/
theorem c10_frame (our csource lsource : Address) (creq : InternalRequest)
    (lreq : LoggingRequest) (st stc stl : State) (v vl : Vfs) (msg : String)
    (hc : handle_internal_request our csource creq st = .ok stc)
    (hl : handle_logging_request lsource lreq st v = .ok (stl, vl) ∨
          handle_logging_request lsource lreq st v = .err msg (stl, vl)) :
    (stc.drive_path = st.drive_path ∧ stc.log_files = st.log_files ∧
      (match creq with
       | .addAllowedPackage _ | .removeAllowedPackage _ =>
         stc.whitelist = st.whitelist ∧ stc.blacklist = st.blacklist
       | .whitelistNode _ | .unwhitelistNode _ =>
         stc.allowed_packages = st.allowed_packages ∧
         stc.blacklist = st.blacklist
       | .blacklistNode _ | .unblacklistNode _ =>
         stc.allowed_packages = st.allowed_packages ∧
         stc.whitelist = st.whitelist)) ∧
    (stl.allowed_packages = st.allowed_packages ∧
     stl.whitelist = st.whitelist ∧ stl.blacklist = st.blacklist ∧
     stl.drive_path = st.drive_path) := by
  constructor
  · unfold handle_internal_request at hc
    by_cases hos : our ≠ csource
    · rw [if_pos hos] at hc
      exact HandleResult.noConfusion hc
    · rw [if_neg hos] at hc
      injection hc with h1
      subst h1
      cases creq <;> exact ⟨rfl, rfl, rfl, rfl⟩
  · have hfr := handle_logging_request_sets lsource lreq st stl v vl msg hl
    exact ⟨hfr.1.1, hfr.1.2.1, hfr.1.2.2, hfr.2⟩

/-- The log-file path derived for `senderB` from `st0`. -/
def pathB : String := "log-drive/pkg:pub/proc.log"

/-- The record persisted for `senderB`'s first payload. -/
def recB : Json := .obj [("m", .str "x"), ("source", addressJson senderB)]

/-- `st0` after the service whitelists node `x.os`. -/
def stW : State := ⟨"log-drive", [], ∅, insert ("x.os") ∅, ∅⟩

/-- `st0` after a log target is created for `senderB`. -/
def stB : State := ⟨"log-drive", [(senderB, pathB)], ∅, ∅, ∅⟩

/-- `vfs0` after `senderB`'s first record is appended. -/
def vfsB : Vfs := (vfs0.touch pathB).append_record pathB recB

theorem c10_frame_witness :
    stB.allowed_packages = st0.allowed_packages ∧
    stB.whitelist = st0.whitelist ∧ stB.blacklist = st0.blacklist ∧
    stB.drive_path = st0.drive_path :=
  (c10_frame ourA ourA senderB (.whitelistNode ("x.os"))
    (.log (some (.obj [("m", .str "x")]))) st0 stW stB vfs0 vfsB ("")
    (by rfl) (Or.inl (by rfl))).2

/-- C3: two successive accepted log-writes from one SenderIdentity create
exactly one append target — keyed by that identity, at directory
`drive_path/package` and file `process.log` — and append two records to that
one file, each stamped with a `source` field equal to the sender (overwriting
any pre-existing `source` field). -/
theorem c3_same_sender_two_writes (our source : Address) (state : State)
    (vfs : Vfs) (f1 f2 : List (String × Json))
    (hfilter : filter_check source state = none)
    (hfresh : findFile state.log_files source = none)
    (hdir : log_dir_path state source ∉ vfs.dir_fail)
    (hfile : log_file_path state source ∉ vfs.file_fail)
    (happ : log_file_path state source ∉ vfs.append_fail) :
    ∃ state1 vfs1 state2 vfs2,
      handle_message our
          ⟨true, source, some (.loggingRequest (.log (some (.obj f1))))⟩
          state vfs = .ok (state1, vfs1) ∧
      handle_message our
          ⟨true, source, some (.loggingRequest (.log (some (.obj f2))))⟩
          state1 vfs1 = .ok (state2, vfs2) ∧
      state1.log_files
        = (source, log_file_path state source) :: state.log_files ∧
      state2.log_files = state1.log_files ∧
      vfs2.contents (log_file_path state source)
        = vfs.contents (log_file_path state source)
          ++ [.obj (setField f1 ("source") (addressJson source)),
              .obj (setField f2 ("source") (addressJson source))] ∧
      (Json.obj (setField f1 ("source") (addressJson source))).get? ("source")
        = some (addressJson source) ∧
      (Json.obj (setField f2 ("source") (addressJson source))).get? ("source")
        = some (addressJson source) := by
  have hfilter1 : filter_check source
      { state with
        log_files := (source, log_file_path state source) :: state.log_files }
      = none :=
    (filter_check_sets source ⟨rfl, rfl, rfl⟩).trans hfilter
  have hfind1 : findFile
      ((source, log_file_path state source) :: state.log_files) source
      = some (log_file_path state source) := by
    simp [findFile]
  have happ1 : log_file_path state source ∉
      ((vfs.touch (log_file_path state source)).append_record
        (log_file_path state source)
        (.obj (setField f1 ("source") (addressJson source)))).append_fail := by
    show log_file_path state source
      ∉ (vfs.touch (log_file_path state source)).append_fail
    rw [(Vfs.touch_fail_fields vfs (log_file_path state source)).2.2]
    exact happ
  refine ⟨{ state with
      log_files := (source, log_file_path state source) :: state.log_files },
    (vfs.touch (log_file_path state source)).append_record
      (log_file_path state source)
      (.obj (setField f1 ("source") (addressJson source))),
    { state with
      log_files := (source, log_file_path state source) :: state.log_files },
    ((vfs.touch (log_file_path state source)).append_record
        (log_file_path state source)
        (.obj (setField f1 ("source") (addressJson source)))).append_record
      (log_file_path state source)
      (.obj (setField f2 ("source") (addressJson source))),
    ?_, ?_, rfl, rfl, ?_, ?_, ?_⟩
  · rw [handle_message_logging our source (.log (some (.obj f1))) state vfs
      hfilter]
    exact handle_logging_request_fresh source f1 state vfs hfresh hdir hfile
      happ
  · rw [handle_message_logging our source (.log (some (.obj f2))) _ _ hfilter1]
    exact handle_logging_request_cached source (log_file_path state source) f2
      _ _ hfind1 happ1
  · rw [Vfs.contents_append_record_self, Vfs.contents_append_record_self,
      Vfs.contents_touch_self]
    simp
  · simp [Json.get?, getField_setField_self]
  · simp [Json.get?, getField_setField_self]

theorem c3_same_sender_two_writes_witness :
    filter_check senderB st0 = none ∧
    findFile st0.log_files senderB = none ∧
    log_dir_path st0 senderB ∉ vfs0.dir_fail ∧
    log_file_path st0 senderB ∉ vfs0.file_fail ∧
    log_file_path st0 senderB ∉ vfs0.append_fail ∧
    ∃ state1 vfs1 state2 vfs2,
      handle_message ourA
          ⟨true, senderB,
           some (.loggingRequest (.log (some (.obj [("m", .str "x")]))))⟩
          st0 vfs0 = .ok (state1, vfs1) ∧
      handle_message ourA
          ⟨true, senderB,
           some (.loggingRequest
             (.log (some (.obj [("m", .str "y"), ("source", .str "forged")]))))⟩
          state1 vfs1 = .ok (state2, vfs2) ∧
      state1.log_files = (senderB, log_file_path st0 senderB) :: st0.log_files ∧
      state2.log_files = state1.log_files ∧
      vfs2.contents (log_file_path st0 senderB)
        = vfs0.contents (log_file_path st0 senderB)
          ++ [.obj (setField [("m", .str "x")] ("source") (addressJson senderB)),
              .obj (setField [("m", .str "y"), ("source", .str "forged")]
                ("source") (addressJson senderB))] ∧
      (Json.obj (setField [("m", .str "x")] ("source")
        (addressJson senderB))).get? ("source") = some (addressJson senderB) ∧
      (Json.obj (setField [("m", .str "y"), ("source", .str "forged")]
        ("source") (addressJson senderB))).get? ("source")
        = some (addressJson senderB) :=
  ⟨by decide, by decide, by decide, by decide, by decide,
   c3_same_sender_two_writes ourA senderB st0 vfs0 [("m", .str "x")]
     [("m", .str "y"), ("source", .str "forged")]
     (by decide) (by decide) (by decide) (by decide) (by decide)⟩

/-- Routing with a cached target whose append fails: a propagated error with
state and storage unchanged. -/
theorem handle_logging_request_cached_append_fail (source : Address)
    (path : String) (f : List (String × Json)) (state : State) (vfs : Vfs)
    (hpath : findFile state.log_files source = some path)
    (happ : path ∈ vfs.append_fail) :
    handle_logging_request source (.log (some (.obj f))) state vfs
      = .err ("append failed") (state, vfs) := by
  unfold handle_logging_request
  simp [Json.indexSet, hpath, happ]

/-- Routing for a fresh sender whose directory cannot be opened: the `expect`
panics. -/
theorem handle_logging_request_dir_fail (source : Address)
    (f : List (String × Json)) (state : State) (vfs : Vfs)
    (hfresh : findFile state.log_files source = none)
    (hdir : log_dir_path state source ∈ vfs.dir_fail) :
    handle_logging_request source (.log (some (.obj f))) state vfs
      = .panic ("failed to open log dir") := by
  unfold handle_logging_request
  simp [Json.indexSet, hfresh, hdir]

/-- Routing for a fresh sender whose directory opens but whose log file cannot
be opened: the second `expect` panics. -/
theorem handle_logging_request_file_fail (source : Address)
    (f : List (String × Json)) (state : State) (vfs : Vfs)
    (hfresh : findFile state.log_files source = none)
    (hdir : log_dir_path state source ∉ vfs.dir_fail)
    (hfile : log_file_path state source ∈ vfs.file_fail) :
    handle_logging_request source (.log (some (.obj f))) state vfs
      = .panic ("failed to open log file") := by
  unfold handle_logging_request
  simp [Json.indexSet, hfresh, hdir, hfile]

/-- A second sender in the same package, differing from `senderB` only in the
origin node. -/
def senderC : Address := ⟨"carol.os", "proc", "pkg", "pub"⟩

/-- The record persisted for `senderC`'s payload. -/
def recC : Json := .obj [("m", .str "y"), ("source", addressJson senderC)]

/-- C5 counterexample: `senderB` and `senderC` are distinct SenderIdentities
sharing one package, yet their accepted log-writes derive the same file path
and land in one single file (two targets are cached, but the storage holds
exactly one file with both records) — not in two distinct files. -/
theorem c5_counterexample_node_collision :
    senderB ≠ senderC ∧
    senderB.package_id = senderC.package_id ∧
    log_file_path st0 senderB = log_file_path st0 senderC ∧
    run ourA
      [⟨true, senderB,
        some (.loggingRequest (.log (some (.obj [("m", .str "x")]))))⟩,
       ⟨true, senderC,
        some (.loggingRequest (.log (some (.obj [("m", .str "y")]))))⟩]
      (st0, vfs0)
      = some (⟨"log-drive", [(senderC, pathB), (senderB, pathB)], ∅, ∅, ∅⟩,
              ⟨[(pathB, [recB, recC])], [], [], []⟩) :=
  ⟨by decide, by decide, rfl, rfl⟩

/-- C5 as amended: two accepted log-writes from senders in the same package
with distinct process identifiers go to two distinct files under the one
shared package directory (senders differing only in origin node share a
file, as the counterexample shows). -/
theorem c5_amended_distinct_processes (our a1 a2 : Address) (state : State)
    (vfs : Vfs) (f1 f2 : List (String × Json))
    (hpkg : a1.package_id = a2.package_id)
    (hproc : a1.process ≠ a2.process)
    (hfil1 : filter_check a1 state = none)
    (hfil2 : filter_check a2 state = none)
    (hfresh1 : findFile state.log_files a1 = none)
    (hfresh2 : findFile state.log_files a2 = none)
    (hdir : log_dir_path state a1 ∉ vfs.dir_fail)
    (hfile1 : log_file_path state a1 ∉ vfs.file_fail)
    (hfile2 : log_file_path state a2 ∉ vfs.file_fail)
    (happ1 : log_file_path state a1 ∉ vfs.append_fail)
    (happ2 : log_file_path state a2 ∉ vfs.append_fail) :
    log_dir_path state a1 = log_dir_path state a2 ∧
    log_file_path state a1 ≠ log_file_path state a2 ∧
    ∃ state1 vfs1 state2 vfs2,
      handle_message our
          ⟨true, a1, some (.loggingRequest (.log (some (.obj f1))))⟩
          state vfs = .ok (state1, vfs1) ∧
      handle_message our
          ⟨true, a2, some (.loggingRequest (.log (some (.obj f2))))⟩
          state1 vfs1 = .ok (state2, vfs2) ∧
      vfs2.contents (log_file_path state a1)
        = vfs.contents (log_file_path state a1)
          ++ [.obj (setField f1 ("source") (addressJson a1))] ∧
      vfs2.contents (log_file_path state a2)
        = vfs.contents (log_file_path state a2)
          ++ [.obj (setField f2 ("source") (addressJson a2))] := by
  have ha12 : a1 ≠ a2 := fun he => hproc (congrArg Address.process he)
  have hdirs : log_dir_path state a1 = log_dir_path state a2 := by
    unfold log_dir_path
    rw [hpkg]
  have hpaths : log_file_path state a1 ≠ log_file_path state a2 := by
    unfold log_file_path
    rw [hdirs]
    exact string_append_ne_of_mid_ne hproc
  refine ⟨hdirs, hpaths, ?_⟩
  have hfil2s : filter_check a2
      { state with
        log_files := (a1, log_file_path state a1) :: state.log_files }
      = none :=
    (filter_check_sets a2 ⟨rfl, rfl, rfl⟩).trans hfil2
  have hfresh2s : findFile
      ((a1, log_file_path state a1) :: state.log_files) a2 = none := by
    simp [findFile, ha12, hfresh2]
  have v1dir : ((vfs.touch (log_file_path state a1)).append_record
      (log_file_path state a1)
      (.obj (setField f1 ("source") (addressJson a1)))).dir_fail
      = vfs.dir_fail :=
    (Vfs.touch_fail_fields vfs (log_file_path state a1)).1
  have v1file : ((vfs.touch (log_file_path state a1)).append_record
      (log_file_path state a1)
      (.obj (setField f1 ("source") (addressJson a1)))).file_fail
      = vfs.file_fail :=
    (Vfs.touch_fail_fields vfs (log_file_path state a1)).2.1
  have v1app : ((vfs.touch (log_file_path state a1)).append_record
      (log_file_path state a1)
      (.obj (setField f1 ("source") (addressJson a1)))).append_fail
      = vfs.append_fail :=
    (Vfs.touch_fail_fields vfs (log_file_path state a1)).2.2
  refine ⟨{ state with
      log_files := (a1, log_file_path state a1) :: state.log_files },
    (vfs.touch (log_file_path state a1)).append_record
      (log_file_path state a1)
      (.obj (setField f1 ("source") (addressJson a1))),
    { state with
      log_files := (a2, log_file_path state a2) ::
        (a1, log_file_path state a1) :: state.log_files },
    (((vfs.touch (log_file_path state a1)).append_record
        (log_file_path state a1)
        (.obj (setField f1 ("source") (addressJson a1)))).touch
          (log_file_path state a2)).append_record (log_file_path state a2)
      (.obj (setField f2 ("source") (addressJson a2))),
    ?_, ?_, ?_, ?_⟩
  · rw [handle_message_logging our a1 (.log (some (.obj f1))) state vfs hfil1]
    exact handle_logging_request_fresh a1 f1 state vfs hfresh1 hdir hfile1
      happ1
  · rw [handle_message_logging our a2 (.log (some (.obj f2))) _ _ hfil2s]
    refine handle_logging_request_fresh a2 f2 _ _ hfresh2s ?_ ?_ ?_
    · show log_dir_path state a2 ∉ _
      rw [v1dir, ← hdirs]
      exact hdir
    · show log_file_path state a2 ∉ _
      rw [v1file]
      exact hfile2
    · show log_file_path state a2 ∉ _
      rw [v1app]
      exact happ2
  · rw [Vfs.contents_append_record_other _ _ hpaths,
      Vfs.contents_touch_other _ hpaths,
      Vfs.contents_append_record_self, Vfs.contents_touch_self]
  · rw [Vfs.contents_append_record_self, Vfs.contents_touch_self,
      Vfs.contents_append_record_other _ _ (Ne.symm hpaths),
      Vfs.contents_touch_other _ (Ne.symm hpaths)]

theorem c5_amended_distinct_processes_witness :
    senderB.package_id = senderB2.package_id ∧
    senderB.process ≠ senderB2.process ∧
    log_dir_path st0 senderB = log_dir_path st0 senderB2 ∧
    log_file_path st0 senderB ≠ log_file_path st0 senderB2 :=
  ⟨by decide, by decide,
   (c5_amended_distinct_processes ourA senderB senderB2 st0 vfs0
     [("m", .str "x")] [("m", .str "y")] (by decide) (by decide) (by decide)
     (by decide) (by decide) (by decide) (by decide) (by decide) (by decide)
     (by decide) (by decide)).1,
   (c5_amended_distinct_processes ourA senderB senderB2 st0 vfs0
     [("m", .str "x")] [("m", .str "y")] (by decide) (by decide) (by decide)
     (by decide) (by decide) (by decide) (by decide) (by decide) (by decide)
     (by decide) (by decide)).2.1⟩

/-- Storage in which opening the package directory for `senderB` fails. -/
def vfsDirFail : Vfs := ⟨[], ["log-drive/pkg:pub"], [], []⟩

/-- Storage in which the package directory opens but opening `senderB`'s log
file fails. -/
def vfsFileFail : Vfs := ⟨[], [], [pathB], []⟩

/-- C4 counterexample: three messages that pass filtering and fail during
routing are not surfaced as per-message errors — a payload that parses as
valid structured data but is not a key/value document, a directory-open
failure, and a file-open failure all panic and terminate the dispatch loop
(`run` dies) instead of being caught and logged. -/
theorem c4_counterexample_routing_panics :
    filter_check senderB st0 = none ∧
    handle_message ourA
      ⟨true, senderB, some (.loggingRequest (.log (some (.num 5))))⟩ st0 vfs0
      = .panic ("cannot index into non-object JSON value") ∧
    run ourA [⟨true, senderB, some (.loggingRequest (.log (some (.num 5))))⟩]
      (st0, vfs0) = none ∧
    handle_message ourA
      ⟨true, senderB,
       some (.loggingRequest (.log (some (.obj [("m", .str "x")]))))⟩
      st0 vfsDirFail = .panic ("failed to open log dir") ∧
    run ourA
      [⟨true, senderB,
        some (.loggingRequest (.log (some (.obj [("m", .str "x")]))))⟩]
      (st0, vfsDirFail) = none ∧
    handle_message ourA
      ⟨true, senderB,
       some (.loggingRequest (.log (some (.obj [("m", .str "x")]))))⟩
      st0 vfsFileFail = .panic ("failed to open log file") ∧
    run ourA
      [⟨true, senderB,
        some (.loggingRequest (.log (some (.obj [("m", .str "x")]))))⟩]
      (st0, vfsFileFail) = none :=
  ⟨by decide, rfl, rfl, rfl, rfl, rfl, rfl⟩

/-- C4 as amended: failures that the code propagates as errors — an
unparseable payload, a foreign-identity control command, and an append
failure on a cached handle — are caught at the top of the dispatch loop and
the loop continues with the next message unchanged; but a payload parsing to
any valid structured data other than a key/value document or null (a bare
number, boolean, string or array), and a directory-open or file-open failure
for a fresh sender, panic and terminate the service. -/
theorem c4_amended_error_containment (our source : Address) (state : State)
    (vfs : Vfs) (hfilter : filter_check source state = none) :
    (∀ rest : List Message, run our
        (⟨true, source, some (.loggingRequest (.log none))⟩ :: rest)
        (state, vfs) = run our rest (state, vfs)) ∧
    (source ≠ our → ∀ (creq : InternalRequest) (rest : List Message),
      run our (⟨true, source, some (.internalRequest creq)⟩ :: rest)
        (state, vfs) = run our rest (state, vfs)) ∧
    (∀ path : String, findFile state.log_files source = some path →
      path ∈ vfs.append_fail →
      ∀ (f : List (String × Json)) (rest : List Message),
      run our
        (⟨true, source, some (.loggingRequest (.log (some (.obj f))))⟩ :: rest)
        (state, vfs) = run our rest (state, vfs)) ∧
    (∀ (n : Int) (rest : List Message), run our
        (⟨true, source, some (.loggingRequest (.log (some (.num n))))⟩ :: rest)
        (state, vfs) = none) ∧
    (∀ (b : Bool) (rest : List Message), run our
        (⟨true, source, some (.loggingRequest (.log (some (.bool b))))⟩ :: rest)
        (state, vfs) = none) ∧
    (∀ (s : String) (rest : List Message), run our
        (⟨true, source, some (.loggingRequest (.log (some (.str s))))⟩ :: rest)
        (state, vfs) = none) ∧
    (∀ (elems : List Json) (rest : List Message), run our
        (⟨true, source, some (.loggingRequest (.log (some (.arr elems))))⟩
          :: rest)
        (state, vfs) = none) ∧
    (findFile state.log_files source = none →
      log_dir_path state source ∈ vfs.dir_fail →
      ∀ (f : List (String × Json)) (rest : List Message), run our
        (⟨true, source, some (.loggingRequest (.log (some (.obj f))))⟩ :: rest)
        (state, vfs) = none) ∧
    (findFile state.log_files source = none →
      log_dir_path state source ∉ vfs.dir_fail →
      log_file_path state source ∈ vfs.file_fail →
      ∀ (f : List (String × Json)) (rest : List Message), run our
        (⟨true, source, some (.loggingRequest (.log (some (.obj f))))⟩ :: rest)
        (state, vfs) = none) := by
  refine ⟨?_, ?_, ?_, ?_, ?_, ?_, ?_, ?_, ?_⟩
  · intro rest
    have hred := handle_message_logging our source (.log none) state vfs
      hfilter
    simp only [run, hred, handle_logging_request]
  · intro hso creq rest
    have hred := handle_message_internal our source creq state vfs hfilter
    have hrej : handle_internal_request our source creq state
        = .err ("rejecting InternalRequest from remote node "
            ++ source.display) state := by
      unfold handle_internal_request
      rw [if_pos (Ne.symm hso)]
    simp only [hrej] at hred
    simp only [run, hred]
  · intro path hpath hmem f rest
    have hred := handle_message_logging our source (.log (some (.obj f)))
      state vfs hfilter
    rw [handle_logging_request_cached_append_fail source path f state vfs
      hpath hmem] at hred
    simp only [run, hred]
  · intro n rest
    have hred := handle_message_logging our source (.log (some (.num n)))
      state vfs hfilter
    have hpan : handle_logging_request source (.log (some (.num n))) state vfs
        = .panic ("cannot index into non-object JSON value") := rfl
    rw [hpan] at hred
    simp only [run, hred]
  · intro b rest
    have hred := handle_message_logging our source (.log (some (.bool b)))
      state vfs hfilter
    have hpan : handle_logging_request source (.log (some (.bool b))) state
        vfs = .panic ("cannot index into non-object JSON value") := rfl
    rw [hpan] at hred
    simp only [run, hred]
  · intro s rest
    have hred := handle_message_logging our source (.log (some (.str s)))
      state vfs hfilter
    have hpan : handle_logging_request source (.log (some (.str s))) state vfs
        = .panic ("cannot index into non-object JSON value") := rfl
    rw [hpan] at hred
    simp only [run, hred]
  · intro elems rest
    have hred := handle_message_logging our source (.log (some (.arr elems)))
      state vfs hfilter
    have hpan : handle_logging_request source (.log (some (.arr elems))) state
        vfs = .panic ("cannot index into non-object JSON value") := rfl
    rw [hpan] at hred
    simp only [run, hred]
  · intro hfresh hdir f rest
    have hred := handle_message_logging our source (.log (some (.obj f)))
      state vfs hfilter
    rw [handle_logging_request_dir_fail source f state vfs hfresh hdir]
      at hred
    simp only [run, hred]
  · intro hfresh hdir hfile f rest
    have hred := handle_message_logging our source (.log (some (.obj f)))
      state vfs hfilter
    rw [handle_logging_request_file_fail source f state vfs hfresh hdir hfile]
      at hred
    simp only [run, hred]

theorem c4_amended_error_containment_witness :
    filter_check senderB st0 = none ∧
    run ourA [⟨true, senderB, some (.loggingRequest (.log none))⟩] (st0, vfs0)
      = run ourA [] (st0, vfs0) ∧
    run ourA [⟨true, senderB, some (.loggingRequest (.log (some (.num 5))))⟩]
      (st0, vfs0) = none ∧
    run ourA
      [⟨true, senderB,
        some (.loggingRequest (.log (some (.obj [("m", .str "x")]))))⟩]
      (st0, vfsFileFail) = none :=
  ⟨by decide,
   (c4_amended_error_containment ourA senderB st0 vfs0 (by decide)).1 [],
   (c4_amended_error_containment ourA senderB st0 vfs0
     (by decide)).2.2.2.1 5 [],
   (c4_amended_error_containment ourA senderB st0 vfsFileFail
     (by decide)).2.2.2.2.2.2.2.2 (by decide) (by decide) (by decide)
     [("m", .str "x")] []⟩

/-- C9: if the access filter denies the service's own identity in some state,
then no sequence of further inbound messages can ever change
`allowed_packages`, `whitelist` or `blacklist` again, and a further control
command from the service itself is silently dropped (`ok`, no error, no state
change): self-administration is permanently and silently locked out. -/
theorem c9_self_lockout (our : Address) (st st1 : State) (vfs v1 : Vfs)
    (msgs : List Message)
    (hdeny : filter_check our st ≠ none)
    (hrun : run our msgs (st, vfs) = some (st1, v1)) :
    st1.allowed_packages = st.allowed_packages ∧
    st1.whitelist = st.whitelist ∧
    st1.blacklist = st.blacklist ∧
    (∀ (creq : InternalRequest) (v : Vfs),
      handle_message our ⟨true, our, some (.internalRequest creq)⟩ st1 v
        = .ok (st1, v)) := by
  have hsets := run_sets_locked our st hdeny msgs st vfs st1 v1
    (sameSets_refl st) hrun
  refine ⟨hsets.1, hsets.2.1, hsets.2.2, ?_⟩
  intro creq v
  have hd1 : filter_check our st1 ≠ none := by
    rw [filter_check_sets our hsets]
    exact hdeny
  rcases hopt : filter_check our st1 with _ | r
  · exact absurd hopt hd1
  · exact handle_message_denied our _ st1 v r rfl hopt

/-- A state whose blacklist contains the service's own node. -/
def stLock : State := ⟨"log-drive", [], ∅, ∅, insert ("alice.os") ∅⟩

/-- `stLock` after a log target is created for `senderB`. -/
def stLockB : State :=
  ⟨"log-drive", [(senderB, pathB)], ∅, ∅, insert ("alice.os") ∅⟩

/-- A control message from the service itself. -/
def mCtl : Message :=
  ⟨true, ourA, some (.internalRequest (.whitelistNode ("alice.os")))⟩

/-- A log-write message from `senderB`. -/
def mLogB : Message :=
  ⟨true, senderB,
   some (.loggingRequest (.log (some (.obj [("m", .str "x")]))))⟩

theorem c9_self_lockout_witness :
    filter_check ourA stLock ≠ none ∧
    run ourA [mCtl, mLogB] (stLock, vfs0) = some (stLockB, vfsB) ∧
    stLockB.allowed_packages = stLock.allowed_packages ∧
    stLockB.whitelist = stLock.whitelist ∧
    stLockB.blacklist = stLock.blacklist ∧
    handle_message ourA
      ⟨true, ourA, some (.internalRequest (.whitelistNode ("alice.os")))⟩
      stLockB vfs0 = .ok (stLockB, vfs0) := by
  have h := c9_self_lockout ourA stLock stLockB vfs0 vfsB [mCtl, mLogB]
    (by decide) (by rfl)
  exact ⟨by decide, by rfl, h.1, h.2.1, h.2.2.1, h.2.2.2 _ _⟩

end Logging
